import Mathlib

/-!
Shallow embedding of the TabexReminder dosing state machine and reminder
scheduler (src/main.py).  Instants are rationals counting seconds since the
UTC epoch; calendar dates are integers counting days since that epoch.
The source formats the user-local time as a zero-padded "HH:MM" string and
compares lexicographically; on such strings that order coincides with the
order of the minute-of-day, so the windows are modelled as integer interval
membership on the minute-of-day.  User records are modelled as well-formed
post-migration records: every key present with its default, timestamps parsed.
-/

-- Dosing schedule table (src/main.py lines 40-66)

def get_required_doses (day : ℤ) : ℤ :=
  if day < 1 ∨ day > 25 then 0
  else if day ≤ 3 then 6
  else if day ≤ 12 then 5
  else if day ≤ 16 then 4
  else if day ≤ 20 then 3
  else 2

def get_interval_hours (day : ℤ) : ℚ :=
  if day < 1 ∨ day > 25 then 2.0
  else if day ≤ 3 then 2.0
  else if day ≤ 12 then 2.5
  else if day ≤ 16 then 3.0
  else if day ≤ 20 then 5.0
  else 12.0

-- User course state: the per-user record stored in data.json, after
-- _migrate_user_reminders has run (no legacy pendingReminders key, both
-- timer keys present).  "last21Check" is the key name used by the code.

structure UserState where
  startDate : ℤ
  timezone : ℤ
  currentDay : ℤ
  takenToday : ℤ
  lastDoseTimestamp : Option ℚ
  nextReminderTimestamp : Option ℚ
  postponedReminderTimestamp : Option ℚ
  lastMorningMessageDate : Option ℤ
  last21Check : Option ℤ
  courseCompleted : Bool
  deriving DecidableEq

-- Outbound messages (send_message / edit_text calls), identified by which
-- send site in the source produced them.  doseReminder's flag records
-- whether it came from the postponed timer (the text is identical).

inductive Notification where
  | completionMsg : Notification
  | morningPrompt : Notification
  | missedCheck : ℤ → Notification
  | doseReminder : Bool → Notification
  | takenAck : Notification
  | postponeAck : Notification
  | missedResolvedAck : Notification
  deriving DecidableEq

def ncount (x : Notification) : List Notification → ℕ
  | [] => 0
  | y :: l => (if y = x then 1 else 0) + ncount x l

-- Event processor (src/main.py lines 372-398): _apply_taken mutates the
-- user dict; the Bool result records whether the completion message was
-- returned.

def _apply_taken (u : UserState) (now : ℚ) : UserState × Bool :=
  let u1 := { u with takenToday := u.takenToday + 1,
                     lastDoseTimestamp := some now,
                     nextReminderTimestamp := none,
                     postponedReminderTimestamp := none }
  let day := u1.currentDay
  let required := get_required_doses day
  let u2 := if u1.takenToday ≥ required then
              { u1 with currentDay := day + 1, takenToday := 0,
                        lastMorningMessageDate := none }
            else u1
  let next_day := u2.currentDay
  if next_day > 25 then
    ({ u2 with courseCompleted := true }, true)
  else
    let ts := some (now + 3600 * get_interval_hours next_day)
    ({ u2 with nextReminderTimestamp := ts }, false)

-- Callback handlers (src/main.py lines 401-456).  cb_taken and cb_postpone
-- return unchanged on a completed course; cb_missed_yes has no such guard
-- in the source.

def cb_taken (u : UserState) (now : ℚ) : UserState × List Notification :=
  if u.courseCompleted then (u, [])
  else
    let r := _apply_taken u now
    (r.1, Notification.takenAck ::
            (if r.2 then [Notification.completionMsg] else []))

def cb_postpone (u : UserState) (now : ℚ) : UserState × List Notification :=
  if u.courseCompleted then (u, [])
  else
    ({ u with postponedReminderTimestamp := some (now + 900) },
     [Notification.postponeAck])

-- cb_missed_yes, lines 436-456.  missed_topup names lines 445-450 (clear
-- both timers, top takenToday up by missed = required - takenToday).

def missed_topup (u : UserState) : UserState :=
  let u1 := { u with nextReminderTimestamp := none,
                     postponedReminderTimestamp := none }
  let required := get_required_doses u1.currentDay
  let missed := required - u1.takenToday
  { u1 with takenToday := u1.takenToday + missed }

def cb_missed_yes (u : UserState) : UserState × List Notification :=
  let u2 := missed_topup u
  let day := u.currentDay
  let required := get_required_doses day
  let u3 := if u2.takenToday ≥ required then
              { u2 with currentDay := day + 1, takenToday := 0,
                        lastMorningMessageDate := none }
            else u2
  (u3, [Notification.missedResolvedAck])

-- Local clock helpers (src/main.py lines 180-194).  qfloor is the floor of
-- a rational; Python's datetime date/"HH:MM" formatting of the user-local
-- instant corresponds to flooring seconds into whole days / whole minutes.

def qfloor (q : ℚ) : ℤ := q.num.fdiv (q.den : ℤ)

def user_local_now (now : ℚ) (tz : ℤ) : ℚ := now + 3600 * (tz : ℚ)

def user_local_date (now : ℚ) (tz : ℤ) : ℤ :=
  qfloor (user_local_now now tz / 86400)

def user_local_minute (now : ℚ) (tz : ℤ) : ℤ :=
  (qfloor (user_local_now now tz / 60)).fmod 1440

-- Scheduler tick, per user (src/main.py lines 538-646).  sendOk models
-- whether bot.send_message succeeds; the source clears a due timer on the
-- exception path too, so the resulting state does not depend on sendOk,
-- only the emitted list does.  "07:59" ≤ t ≤ "08:01" is minute-of-day in
-- [479, 481]; "20:59" ≤ t ≤ "21:02" is minute-of-day in [1259, 1262].

def morning_step (u : UserState) (today tmin : ℤ) (sendOk : Bool) :
    UserState × List Notification :=
  if 479 ≤ tmin ∧ tmin ≤ 481 ∧ u.lastMorningMessageDate ≠ some today then
    ({ u with lastMorningMessageDate := some today },
     if sendOk then [Notification.morningPrompt] else [])
  else (u, [])

def evening_step (u : UserState) (today tmin required : ℤ) (sendOk : Bool) :
    UserState × List Notification :=
  if 1259 ≤ tmin ∧ tmin ≤ 1262 ∧ required - u.takenToday > 0 ∧
       u.last21Check ≠ some today then
    ({ u with last21Check := some today },
     if sendOk then [Notification.missedCheck (required - u.takenToday)] else [])
  else (u, [])

def next_reminder_step (u : UserState) (now : ℚ) (sendOk : Bool) :
    UserState × List Notification :=
  match u.nextReminderTimestamp with
  | none => (u, [])
  | some t =>
    if now ≥ t then
      ({ u with nextReminderTimestamp := none },
       if sendOk then [Notification.doseReminder false] else [])
    else (u, [])

def post_reminder_step (u : UserState) (now : ℚ) (sendOk : Bool) :
    UserState × List Notification :=
  match u.postponedReminderTimestamp with
  | none => (u, [])
  | some t =>
    if now ≥ t then
      ({ u with postponedReminderTimestamp := none },
       if sendOk then [Notification.doseReminder true] else [])
    else (u, [])

def tick_user (u : UserState) (now : ℚ) (sendOk : Bool) :
    UserState × List Notification :=
  if u.courseCompleted then (u, [])
  else
    let today := user_local_date now u.timezone
    let tmin := user_local_minute now u.timezone
    let day := u.currentDay
    if day > 25 then
      ({ u with courseCompleted := true },
       if sendOk then [Notification.completionMsg] else [])
    else
      let required := get_required_doses day
      let r1 := morning_step u today tmin sendOk
      let r2 := evening_step r1.1 today tmin required sendOk
      let r3 := next_reminder_step r2.1 now sendOk
      let r4 := post_reminder_step r3.1 now sendOk
      (r4.1, r1.2 ++ r2.2 ++ r3.2 ++ r4.2)

-- Legacy-record migration (src/main.py lines 122-151).  A raw record is the
-- dict before migration: after the two setdefault calls, a missing timer key
-- and a key holding None are indistinguishable to every later read, so both
-- are modelled as none.  pendingReminders = none models an absent key; a
-- falsy stored value (None or []) is modelled as some [].  A list entry
-- models pr.get("triggerAt"): none for a falsy/absent triggerAt, some none
-- for a string datetime.fromisoformat rejects, some (some t) for one that
-- parses to instant t.

abbrev PendingEntry := Option (Option ℚ)

structure RawUser where
  nextReminderTimestamp : Option ℚ
  postponedReminderTimestamp : Option ℚ
  pendingReminders : Option (List PendingEntry)
  deriving DecidableEq

-- The earliest-search loop of lines 136-146.
def earliest_step (earliest : Option ℚ) (pr : PendingEntry) : Option ℚ :=
  match pr with
  | some (some dt) =>
    match earliest with
    | none => some dt
    | some e => if dt < e then some dt else some e
  | _ => earliest

def earliest_trigger (pending : List PendingEntry) : Option ℚ :=
  pending.foldl earliest_step none

def _migrate_user_reminders (u : RawUser) : RawUser × Bool :=
  match u.pendingReminders with
  | none => (u, false)
  | some [] => ({ u with pendingReminders := none }, true)
  | some pending =>
    if u.nextReminderTimestamp.isSome then
      ({ u with pendingReminders := none }, true)
    else
      let earliest := earliest_trigger pending
      let u1 := match earliest with
                | some e => { u with nextReminderTimestamp := some e }
                | none => u
      ({ u1 with postponedReminderTimestamp := none,
                 pendingReminders := none }, true)

-- parse_timezone (src/main.py lines 154-165), embedded at character level.
-- The character classes it relies on are Unicode-aware properties of the
-- Python runtime, not of this repository: the regex class \d accepts any
-- Unicode decimal digit (category Nd), int() maps each such digit to its
-- decimal value, and str.strip removes any Unicode whitespace.  The
-- embedding is therefore parametric in the runtime's digit test isD, digit
-- value dv and strip function strip; instantiating them with the runtime's
-- actual classes gives the source function, and instantiating isD with
-- Char.isDigit, dv with digitVal and strip with String.toList or
-- String.trim.toList gives an executable instance that agrees with the
-- runtime on ASCII input.  The signs '+', '-' and the separator ':' are
-- ASCII literals in the source regex and stay literal here.
-- tz_re_match models re.match of the pattern against the sign-stripped
-- body: the result carries int(group(1)) without the sign and whether the
-- optional ":MM" group matched; no regex match is none (the code returns
-- None both when the regex fails and when group(2) is present).

def digitVal (c : Char) : ℤ := (c.toNat : ℤ) - 48

def tz_re_match (isD : Char → Bool) (dv : Char → ℤ) :
    List Char → Option (ℤ × Bool)
  | [d1] => if isD d1 then some (dv d1, false) else none
  | [d1, d2] =>
    if isD d1 ∧ isD d2 then
      some (10 * dv d1 + dv d2, false)
    else none
  | [d1, c, m1, m2] =>
    if isD d1 ∧ c = ':' ∧ isD m1 ∧ isD m2 then
      some (dv d1, true)
    else none
  | [d1, d2, c, m1, m2] =>
    if isD d1 ∧ isD d2 ∧ c = ':' ∧ isD m1 ∧ isD m2 then
      some (10 * dv d1 + dv d2, true)
    else none
  | _ => none

-- The steps after a regex match: if the ":MM" group matched, the code
-- returns None; otherwise h = int(group(1)) (the sign applied to the
-- digit value) is range-checked.

def tz_apply_sign (isD : Char → Bool) (dv : Char → ℤ) (sgn : ℤ)
    (body : List Char) : Option ℤ :=
  match tz_re_match isD dv body with
  | none => none
  | some hm =>
    if hm.2 then none
    else
      let h := sgn * hm.1
      if h < -12 ∨ h > 14 then none else some h

def parse_timezone_chars (isD : Char → Bool) (dv : Char → ℤ)
    (cs : List Char) : Option ℤ :=
  match cs with
  | c :: rest =>
    if c = '+' then tz_apply_sign isD dv 1 rest
    else if c = '-' then tz_apply_sign isD dv (-1) rest
    else tz_apply_sign isD dv 1 cs
  | [] => tz_apply_sign isD dv 1 cs

def parse_timezone (isD : Char → Bool) (dv : Char → ℤ)
    (strip : String → List Char) (s : String) : Option ℤ :=
  parse_timezone_chars isD dv (strip s)

-- Modelled from the claim's words for C10: the stripped input is an
-- optionally signed one- or two-digit number (no minutes part) denoting h,
-- a digit being whatever character the runtime's \d accepts.

def tz_claim_shape (isD : Char → Bool) (dv : Char → ℤ)
    (cs : List Char) (h : ℤ) : Prop :=
  (∃ d1, cs = [d1] ∧ isD d1 = true ∧ h = dv d1) ∨
  (∃ d1 d2, cs = [d1, d2] ∧ isD d1 = true ∧ isD d2 = true ∧
    h = 10 * dv d1 + dv d2) ∨
  (∃ d1, cs = ['+', d1] ∧ isD d1 = true ∧ h = dv d1) ∨
  (∃ d1 d2, cs = ['+', d1, d2] ∧ isD d1 = true ∧ isD d2 = true ∧
    h = 10 * dv d1 + dv d2) ∨
  (∃ d1, cs = ['-', d1] ∧ isD d1 = true ∧ h = -dv d1) ∨
  (∃ d1 d2, cs = ['-', d1, d2] ∧ isD d1 = true ∧ isD d2 = true ∧
    h = -(10 * dv d1 + dv d2))

-- ===================== Theorems =====================

theorem ncount_append (x : Notification) (a b : List Notification) :
    ncount x (a ++ b) = ncount x a + ncount x b := by
  induction a with
  | nil => simp [ncount]
  | cons y l ih => simp [ncount, ih, Nat.add_assoc]

/-- Claim C2: the dosing schedule table is the stated pure total function of
the day: (6, 2.0) on days 1-3, (5, 2.5) on 4-12, (4, 3.0) on 13-16,
(3, 5.0) on 17-20, (2, 12.0) on 21-25, fallback (0, 2.0) outside [1,25];
both components are positive on [1,25] and requiredDoses vanishes outside. -/
theorem claim_C2_schedule_table (day : ℤ) :
    ((1 ≤ day ∧ day ≤ 3) →
      get_required_doses day = 6 ∧ get_interval_hours day = 2.0) ∧
    ((4 ≤ day ∧ day ≤ 12) →
      get_required_doses day = 5 ∧ get_interval_hours day = 2.5) ∧
    ((13 ≤ day ∧ day ≤ 16) →
      get_required_doses day = 4 ∧ get_interval_hours day = 3.0) ∧
    ((17 ≤ day ∧ day ≤ 20) →
      get_required_doses day = 3 ∧ get_interval_hours day = 5.0) ∧
    ((21 ≤ day ∧ day ≤ 25) →
      get_required_doses day = 2 ∧ get_interval_hours day = 12.0) ∧
    ((day < 1 ∨ day > 25) →
      get_required_doses day = 0 ∧ get_interval_hours day = 2.0) ∧
    ((1 ≤ day ∧ day ≤ 25) →
      0 < get_required_doses day ∧ 0 < get_interval_hours day) := by
  refine ⟨?_, ?_, ?_, ?_, ?_, ?_, ?_⟩ <;> intro h <;>
    unfold get_required_doses get_interval_hours <;>
    split_ifs <;> first | omega | (exfalso; omega) | norm_num

theorem claim_C2_schedule_table_witness :
    get_required_doses 2 = 6 ∧ get_interval_hours 5 = 2.5 ∧
    get_required_doses 0 = 0 ∧ 0 < get_required_doses 25 :=
  ⟨((claim_C2_schedule_table 2).1 (by decide)).1,
   ((claim_C2_schedule_table 5).2.1 (by decide)).2,
   ((claim_C2_schedule_table 0).2.2.2.2.2.1 (Or.inl (by decide))).1,
   ((claim_C2_schedule_table 25).2.2.2.2.2.2 (by decide)).1⟩

-- Day-1 start state and the six-dose run used for claim C3.

def c3_state : UserState := ⟨0, 0, 1, 0, none, none, none, none, none, false⟩

def c3_run : UserState :=
  (_apply_taken ((_apply_taken ((_apply_taken ((_apply_taken ((_apply_taken
    ((_apply_taken c3_state 0).1) 0).1) 0).1) 0).1) 0).1) 0).1

/-- Claim C3 is false as stated: six applyDoseTaken calls from day 1 do end
on day 2 with takenToday 0, but the sixth call schedules the next reminder
at its instant plus get_interval_hours 2 = 2.0 hours (7200 s), not plus
2.5 hours. -/
theorem claim_C3_counterexample :
    c3_run.currentDay = 2 ∧ c3_run.takenToday = 0 ∧
    c3_run.nextReminderTimestamp = some ((0 : ℚ) + 3600 * 2.0) ∧
    c3_run.nextReminderTimestamp ≠ some ((0 : ℚ) + 3600 * 2.5) := by
  have h1 : (_apply_taken c3_state 0).1
      = (⟨0, 0, 1, 1, some 0, some 7200, none, none, none, false⟩ : UserState) := by
    norm_num [c3_state, _apply_taken, get_required_doses, get_interval_hours]
  have h2 : (_apply_taken (⟨0, 0, 1, 1, some 0, some 7200, none, none, none, false⟩ : UserState) 0).1
      = (⟨0, 0, 1, 2, some 0, some 7200, none, none, none, false⟩ : UserState) := by
    norm_num [_apply_taken, get_required_doses, get_interval_hours]
  have h3 : (_apply_taken (⟨0, 0, 1, 2, some 0, some 7200, none, none, none, false⟩ : UserState) 0).1
      = (⟨0, 0, 1, 3, some 0, some 7200, none, none, none, false⟩ : UserState) := by
    norm_num [_apply_taken, get_required_doses, get_interval_hours]
  have h4 : (_apply_taken (⟨0, 0, 1, 3, some 0, some 7200, none, none, none, false⟩ : UserState) 0).1
      = (⟨0, 0, 1, 4, some 0, some 7200, none, none, none, false⟩ : UserState) := by
    norm_num [_apply_taken, get_required_doses, get_interval_hours]
  have h5 : (_apply_taken (⟨0, 0, 1, 4, some 0, some 7200, none, none, none, false⟩ : UserState) 0).1
      = (⟨0, 0, 1, 5, some 0, some 7200, none, none, none, false⟩ : UserState) := by
    norm_num [_apply_taken, get_required_doses, get_interval_hours]
  have h6 : (_apply_taken (⟨0, 0, 1, 5, some 0, some 7200, none, none, none, false⟩ : UserState) 0).1
      = (⟨0, 0, 2, 0, some 0, some 7200, none, none, none, false⟩ : UserState) := by
    norm_num [_apply_taken, get_required_doses, get_interval_hours]
  have e : c3_run = ⟨0, 0, 2, 0, some 0, some 7200, none, none, none, false⟩ := by
    unfold c3_run
    rw [h1, h2, h3, h4, h5, h6]
  refine ⟨by rw [e], by rw [e], by rw [e]; norm_num, by rw [e]; norm_num⟩

/-- Claim C3 (amended): starting from currentDay = 1, takenToday = 0, not
courseCompleted, six consecutive applyDoseTaken calls yield currentDay = 2,
takenToday = 0, and nextReminderTimestamp equal to the sixth call's instant
plus 2.0 hours (the day-2 interval). -/
theorem claim_C3_amended_six_doses (u : UserState) (t1 t2 t3 t4 t5 t6 : ℚ)
    (hc : u.courseCompleted = false) (hd : u.currentDay = 1)
    (ht : u.takenToday = 0) :
    ((_apply_taken ((_apply_taken ((_apply_taken ((_apply_taken ((_apply_taken
        ((_apply_taken u t1).1) t2).1) t3).1) t4).1) t5).1) t6).1).currentDay
        = 2 ∧
    ((_apply_taken ((_apply_taken ((_apply_taken ((_apply_taken ((_apply_taken
        ((_apply_taken u t1).1) t2).1) t3).1) t4).1) t5).1) t6).1).takenToday
        = 0 ∧
    ((_apply_taken ((_apply_taken ((_apply_taken ((_apply_taken ((_apply_taken
        ((_apply_taken u t1).1) t2).1) t3).1) t4).1) t5).1) t6).1).nextReminderTimestamp
        = some (t6 + 3600 * 2.0) := by
  obtain ⟨sd, tz, cd, tt, ld, nr, pr, lm, l21, cc⟩ := u
  dsimp only at hd ht hc
  subst hd ht hc
  have h1 : (_apply_taken (⟨sd, tz, 1, 0, ld, nr, pr, lm, l21, false⟩ : UserState) t1).1
      = ⟨sd, tz, 1, 1, some t1, some (t1 + 7200), none, lm, l21, false⟩ := by
    norm_num [_apply_taken, get_required_doses, get_interval_hours]
  have h2 : (_apply_taken (⟨sd, tz, 1, 1, some t1, some (t1 + 7200), none, lm, l21, false⟩ : UserState) t2).1
      = ⟨sd, tz, 1, 2, some t2, some (t2 + 7200), none, lm, l21, false⟩ := by
    norm_num [_apply_taken, get_required_doses, get_interval_hours]
  have h3 : (_apply_taken (⟨sd, tz, 1, 2, some t2, some (t2 + 7200), none, lm, l21, false⟩ : UserState) t3).1
      = ⟨sd, tz, 1, 3, some t3, some (t3 + 7200), none, lm, l21, false⟩ := by
    norm_num [_apply_taken, get_required_doses, get_interval_hours]
  have h4 : (_apply_taken (⟨sd, tz, 1, 3, some t3, some (t3 + 7200), none, lm, l21, false⟩ : UserState) t4).1
      = ⟨sd, tz, 1, 4, some t4, some (t4 + 7200), none, lm, l21, false⟩ := by
    norm_num [_apply_taken, get_required_doses, get_interval_hours]
  have h5 : (_apply_taken (⟨sd, tz, 1, 4, some t4, some (t4 + 7200), none, lm, l21, false⟩ : UserState) t5).1
      = ⟨sd, tz, 1, 5, some t5, some (t5 + 7200), none, lm, l21, false⟩ := by
    norm_num [_apply_taken, get_required_doses, get_interval_hours]
  have h6 : (_apply_taken (⟨sd, tz, 1, 5, some t5, some (t5 + 7200), none, lm, l21, false⟩ : UserState) t6).1
      = ⟨sd, tz, 2, 0, some t6, some (t6 + 7200), none, none, l21, false⟩ := by
    norm_num [_apply_taken, get_required_doses, get_interval_hours]
  rw [h1, h2, h3, h4, h5, h6]
  refine ⟨rfl, rfl, by norm_num⟩

theorem claim_C3_amended_six_doses_witness :
    ((_apply_taken ((_apply_taken ((_apply_taken ((_apply_taken ((_apply_taken
        ((_apply_taken c3_state 0).1) 0).1) 0).1) 0).1) 0).1) 0).1).currentDay
        = 2 ∧
    ((_apply_taken ((_apply_taken ((_apply_taken ((_apply_taken ((_apply_taken
        ((_apply_taken c3_state 0).1) 0).1) 0).1) 0).1) 0).1) 0).1).takenToday
        = 0 ∧
    ((_apply_taken ((_apply_taken ((_apply_taken ((_apply_taken ((_apply_taken
        ((_apply_taken c3_state 0).1) 0).1) 0).1) 0).1) 0).1) 0).1).nextReminderTimestamp
        = some ((0 : ℚ) + 3600 * 2.0) :=
  claim_C3_amended_six_doses c3_state 0 0 0 0 0 0 rfl rfl rfl

/-- Claim C4: on any non-completed state with takenToday below the day's
required doses, missed-dose resolution first tops takenToday up to exactly
requiredDoses(currentDay) and clears both reminder timers, then advances
currentDay by one, resets takenToday to 0, clears lastMorningMessageDate,
and never sets a new nextReminderTimestamp. -/
theorem claim_C4_missed_resolution (u : UserState)
    (hc : u.courseCompleted = false)
    (hlt : u.takenToday < get_required_doses u.currentDay) :
    (missed_topup u).takenToday = get_required_doses u.currentDay ∧
    (missed_topup u).nextReminderTimestamp = none ∧
    (missed_topup u).postponedReminderTimestamp = none ∧
    (missed_topup u).currentDay = u.currentDay ∧
    (cb_missed_yes u).1.currentDay = u.currentDay + 1 ∧
    (cb_missed_yes u).1.takenToday = 0 ∧
    (cb_missed_yes u).1.lastMorningMessageDate = none ∧
    (cb_missed_yes u).1.nextReminderTimestamp = none ∧
    (cb_missed_yes u).1.postponedReminderTimestamp = none := by
  obtain ⟨sd, tz, cd, tt, ld, nr, pr, lm, l21, cc⟩ := u
  refine ⟨?_, ?_, ?_, ?_, ?_, ?_, ?_, ?_, ?_⟩ <;>
    simp [cb_missed_yes, missed_topup] <;>
    split_ifs <;> first | rfl | omega | (exfalso; omega) | simp

def c4_state : UserState := ⟨0, 0, 5, 2, none, some 10, some 20, some 3, none, false⟩

theorem claim_C4_missed_resolution_witness :
    (missed_topup c4_state).takenToday = get_required_doses 5 ∧
    (cb_missed_yes c4_state).1.currentDay = 6 ∧
    (cb_missed_yes c4_state).1.takenToday = 0 ∧
    (cb_missed_yes c4_state).1.nextReminderTimestamp = none := by
  have h := claim_C4_missed_resolution c4_state rfl (by decide)
  exact ⟨h.1, h.2.2.2.2.1, h.2.2.2.2.2.1, h.2.2.2.2.2.2.2.1⟩

/-- Claim C5: from currentDay = 25, takenToday = 1, not courseCompleted, a
single applyDoseTaken yields currentDay = 26, courseCompleted = true, a null
nextReminderTimestamp, and the completion notice. -/
theorem claim_C5_completion (u : UserState) (t : ℚ)
    (hc : u.courseCompleted = false) (hd : u.currentDay = 25)
    (ht : u.takenToday = 1) :
    (_apply_taken u t).1.currentDay = 26 ∧
    (_apply_taken u t).1.courseCompleted = true ∧
    (_apply_taken u t).1.nextReminderTimestamp = none ∧
    (_apply_taken u t).2 = true := by
  obtain ⟨sd, tz, cd, tt, ld, nr, pr, lm, l21, cc⟩ := u
  dsimp only at hd ht hc
  subst hd ht hc
  norm_num [_apply_taken, get_required_doses]

def c5_state : UserState := ⟨0, 0, 25, 1, none, some 10, none, some 3, none, false⟩

theorem claim_C5_completion_witness :
    (_apply_taken c5_state 100).1.currentDay = 26 ∧
    (_apply_taken c5_state 100).1.courseCompleted = true ∧
    (_apply_taken c5_state 100).1.nextReminderTimestamp = none ∧
    (_apply_taken c5_state 100).2 = true :=
  claim_C5_completion c5_state 100 rfl rfl rfl

/-- Claim C6: on any non-completed state, applyPostpone sets
postponedReminderTimestamp to the instant plus 15 minutes (900 s) and leaves
every other field unchanged, in particular nextReminderTimestamp. -/
theorem claim_C6_postpone_frame (u : UserState) (t : ℚ)
    (hc : u.courseCompleted = false) :
    cb_postpone u t =
      ({ u with postponedReminderTimestamp := some (t + 900) },
       [Notification.postponeAck]) := by
  simp [cb_postpone, hc]

def c6_state : UserState := ⟨0, 0, 7, 1, some 5, some 10, some 20, some 3, some 3, false⟩

theorem claim_C6_postpone_frame_witness :
    cb_postpone c6_state 60 =
      ({ c6_state with postponedReminderTimestamp := some (60 + 900) },
       [Notification.postponeAck]) :=
  claim_C6_postpone_frame c6_state 60 rfl

-- A completed user record; the first dose handlers and the tick leave it
-- untouched, but cb_missed_yes (which has no courseCompleted guard in the
-- source) still rewrites it.

def c1_state : UserState := ⟨0, 0, 26, 0, none, none, none, none, none, true⟩

/-- Claim C1 is right about cb_taken, cb_postpone and the scheduler tick but
wrong about cb_missed_yes: on a completed state the missed-resolution
callback still mutates the record (here currentDay 26 becomes 27) and still
emits its acknowledgment edit, because the source lacks the courseCompleted
guard there. -/
theorem claim_C1_completed_not_terminal_for_missed_yes :
    c1_state.courseCompleted = true ∧
    cb_taken c1_state 0 = (c1_state, []) ∧
    cb_postpone c1_state 0 = (c1_state, []) ∧
    tick_user c1_state 0 true = (c1_state, []) ∧
    (cb_missed_yes c1_state).1.currentDay = 27 ∧
    (cb_missed_yes c1_state).1 ≠ c1_state ∧
    (cb_missed_yes c1_state).2 ≠ [] := by
  decide

-- Frame facts about the four tick sub-steps, used for claims C7 and C8.

theorem morning_step_next (u : UserState) (td tm : ℤ) (s : Bool) :
    (morning_step u td tm s).1.nextReminderTimestamp = u.nextReminderTimestamp := by
  unfold morning_step; split <;> rfl

theorem morning_step_post (u : UserState) (td tm : ℤ) (s : Bool) :
    (morning_step u td tm s).1.postponedReminderTimestamp = u.postponedReminderTimestamp := by
  unfold morning_step; split <;> rfl

theorem morning_step_completed (u : UserState) (td tm : ℤ) (s : Bool) :
    (morning_step u td tm s).1.courseCompleted = u.courseCompleted := by
  unfold morning_step; split <;> rfl

theorem morning_step_day (u : UserState) (td tm : ℤ) (s : Bool) :
    (morning_step u td tm s).1.currentDay = u.currentDay := by
  unfold morning_step; split <;> rfl

theorem morning_step_tz (u : UserState) (td tm : ℤ) (s : Bool) :
    (morning_step u td tm s).1.timezone = u.timezone := by
  unfold morning_step; split <;> rfl

theorem morning_step_count_dose (u : UserState) (td tm : ℤ) (s b : Bool) :
    ncount (Notification.doseReminder b) (morning_step u td tm s).2 = 0 := by
  unfold morning_step; split <;> cases s <;> simp [ncount]

theorem evening_step_next (u : UserState) (td tm rq : ℤ) (s : Bool) :
    (evening_step u td tm rq s).1.nextReminderTimestamp = u.nextReminderTimestamp := by
  unfold evening_step; split <;> rfl

theorem evening_step_post (u : UserState) (td tm rq : ℤ) (s : Bool) :
    (evening_step u td tm rq s).1.postponedReminderTimestamp = u.postponedReminderTimestamp := by
  unfold evening_step; split <;> rfl

theorem evening_step_completed (u : UserState) (td tm rq : ℤ) (s : Bool) :
    (evening_step u td tm rq s).1.courseCompleted = u.courseCompleted := by
  unfold evening_step; split <;> rfl

theorem evening_step_day (u : UserState) (td tm rq : ℤ) (s : Bool) :
    (evening_step u td tm rq s).1.currentDay = u.currentDay := by
  unfold evening_step; split <;> rfl

theorem evening_step_tz (u : UserState) (td tm rq : ℤ) (s : Bool) :
    (evening_step u td tm rq s).1.timezone = u.timezone := by
  unfold evening_step; split <;> rfl

theorem evening_step_lastMorning (u : UserState) (td tm rq : ℤ) (s : Bool) :
    (evening_step u td tm rq s).1.lastMorningMessageDate = u.lastMorningMessageDate := by
  unfold evening_step; split <;> rfl

theorem evening_step_count_dose (u : UserState) (td tm rq : ℤ) (s b : Bool) :
    ncount (Notification.doseReminder b) (evening_step u td tm rq s).2 = 0 := by
  unfold evening_step; split <;> cases s <;> simp [ncount]

theorem evening_step_count_morning (u : UserState) (td tm rq : ℤ) (s : Bool) :
    ncount Notification.morningPrompt (evening_step u td tm rq s).2 = 0 := by
  unfold evening_step; split <;> cases s <;> simp [ncount]

theorem next_reminder_step_post (u : UserState) (now : ℚ) (s : Bool) :
    (next_reminder_step u now s).1.postponedReminderTimestamp = u.postponedReminderTimestamp := by
  unfold next_reminder_step
  split
  · rfl
  · split <;> rfl

theorem next_reminder_step_completed (u : UserState) (now : ℚ) (s : Bool) :
    (next_reminder_step u now s).1.courseCompleted = u.courseCompleted := by
  unfold next_reminder_step
  split
  · rfl
  · split <;> rfl

theorem next_reminder_step_day (u : UserState) (now : ℚ) (s : Bool) :
    (next_reminder_step u now s).1.currentDay = u.currentDay := by
  unfold next_reminder_step
  split
  · rfl
  · split <;> rfl

theorem next_reminder_step_tz (u : UserState) (now : ℚ) (s : Bool) :
    (next_reminder_step u now s).1.timezone = u.timezone := by
  unfold next_reminder_step
  split
  · rfl
  · split <;> rfl

theorem next_reminder_step_lastMorning (u : UserState) (now : ℚ) (s : Bool) :
    (next_reminder_step u now s).1.lastMorningMessageDate = u.lastMorningMessageDate := by
  unfold next_reminder_step
  split
  · rfl
  · split <;> rfl

theorem next_reminder_step_count_true (u : UserState) (now : ℚ) (s : Bool) :
    ncount (Notification.doseReminder true) (next_reminder_step u now s).2 = 0 := by
  unfold next_reminder_step
  split
  · simp [ncount]
  · split <;> cases s <;> simp [ncount]

theorem next_reminder_step_count_morning (u : UserState) (now : ℚ) (s : Bool) :
    ncount Notification.morningPrompt (next_reminder_step u now s).2 = 0 := by
  unfold next_reminder_step
  split
  · simp [ncount]
  · split <;> cases s <;> simp [ncount]

theorem post_reminder_step_next (u : UserState) (now : ℚ) (s : Bool) :
    (post_reminder_step u now s).1.nextReminderTimestamp = u.nextReminderTimestamp := by
  unfold post_reminder_step
  split
  · rfl
  · split <;> rfl

theorem post_reminder_step_completed (u : UserState) (now : ℚ) (s : Bool) :
    (post_reminder_step u now s).1.courseCompleted = u.courseCompleted := by
  unfold post_reminder_step
  split
  · rfl
  · split <;> rfl

theorem post_reminder_step_day (u : UserState) (now : ℚ) (s : Bool) :
    (post_reminder_step u now s).1.currentDay = u.currentDay := by
  unfold post_reminder_step
  split
  · rfl
  · split <;> rfl

theorem post_reminder_step_tz (u : UserState) (now : ℚ) (s : Bool) :
    (post_reminder_step u now s).1.timezone = u.timezone := by
  unfold post_reminder_step
  split
  · rfl
  · split <;> rfl

theorem post_reminder_step_lastMorning (u : UserState) (now : ℚ) (s : Bool) :
    (post_reminder_step u now s).1.lastMorningMessageDate = u.lastMorningMessageDate := by
  unfold post_reminder_step
  split
  · rfl
  · split <;> rfl

theorem post_reminder_step_count_false (u : UserState) (now : ℚ) (s : Bool) :
    ncount (Notification.doseReminder false) (post_reminder_step u now s).2 = 0 := by
  unfold post_reminder_step
  split
  · simp [ncount]
  · split <;> cases s <;> simp [ncount]

theorem post_reminder_step_count_morning (u : UserState) (now : ℚ) (s : Bool) :
    ncount Notification.morningPrompt (post_reminder_step u now s).2 = 0 := by
  unfold post_reminder_step
  split
  · simp [ncount]
  · split <;> cases s <;> simp [ncount]

-- Behavior of the steps under their guards.

theorem morning_step_fire (u : UserState) (td tm : ℤ) (s : Bool)
    (hw : 479 ≤ tm ∧ tm ≤ 481) (hnew : u.lastMorningMessageDate ≠ some td) :
    morning_step u td tm s =
      ({ u with lastMorningMessageDate := some td },
       if s then [Notification.morningPrompt] else []) := by
  unfold morning_step
  rw [if_pos ⟨hw.1, hw.2, hnew⟩]

theorem morning_step_skip (u : UserState) (td tm : ℤ) (s : Bool)
    (hold : u.lastMorningMessageDate = some td) :
    morning_step u td tm s = (u, []) := by
  unfold morning_step
  rw [if_neg]
  intro h
  exact h.2.2 hold

theorem next_reminder_step_due (u : UserState) (now : ℚ) (s : Bool) (T : ℚ)
    (h : u.nextReminderTimestamp = some T) (hdue : T ≤ now) :
    next_reminder_step u now s =
      ({ u with nextReminderTimestamp := none },
       if s then [Notification.doseReminder false] else []) := by
  unfold next_reminder_step
  rw [h]
  exact if_pos hdue

theorem next_reminder_step_notdue (u : UserState) (now : ℚ) (s : Bool) (T : ℚ)
    (h : u.nextReminderTimestamp = some T) (hlt : now < T) :
    next_reminder_step u now s = (u, []) := by
  unfold next_reminder_step
  rw [h]
  exact if_neg (not_le.mpr hlt)

theorem post_reminder_step_due (u : UserState) (now : ℚ) (s : Bool) (T : ℚ)
    (h : u.postponedReminderTimestamp = some T) (hdue : T ≤ now) :
    post_reminder_step u now s =
      ({ u with postponedReminderTimestamp := none },
       if s then [Notification.doseReminder true] else []) := by
  unfold post_reminder_step
  rw [h]
  exact if_pos hdue

theorem post_reminder_step_notdue (u : UserState) (now : ℚ) (s : Bool) (T : ℚ)
    (h : u.postponedReminderTimestamp = some T) (hlt : now < T) :
    post_reminder_step u now s = (u, []) := by
  unfold post_reminder_step
  rw [h]
  exact if_neg (not_le.mpr hlt)

-- The tick on a non-completed user within the 25-day course is exactly the
-- composition of the four sub-steps.

theorem tick_user_active (u : UserState) (now : ℚ) (s : Bool)
    (hc : u.courseCompleted = false) (hd : u.currentDay ≤ 25)
    (r1 r2 r3 r4 : UserState × List Notification)
    (h1 : r1 = morning_step u (user_local_date now u.timezone)
                 (user_local_minute now u.timezone) s)
    (h2 : r2 = evening_step r1.1 (user_local_date now u.timezone)
                 (user_local_minute now u.timezone)
                 (get_required_doses u.currentDay) s)
    (h3 : r3 = next_reminder_step r2.1 now s)
    (h4 : r4 = post_reminder_step r3.1 now s) :
    tick_user u now s = (r4.1, r1.2 ++ r2.2 ++ r3.2 ++ r4.2) := by
  subst h1 h2 h3 h4
  have h25 : ¬ u.currentDay > 25 := by omega
  unfold tick_user
  simp [hc, h25]

-- A non-completed user already past day 25: reachable from day 25 through
-- cb_missed_yes, which advances the day without setting courseCompleted.

def c8_state : UserState := ⟨0, 0, 26, 0, none, some 0, none, none, none, false⟩

/-- Claim C8 is false as stated: for the non-completed user c8_state with
currentDay = 26 and a due nextReminderTimestamp, the tick runs the
completion sweep instead, emitting no dose reminder and leaving the timer
set instead of clearing it. -/
theorem claim_C8_counterexample :
    c8_state.courseCompleted = false ∧
    c8_state.nextReminderTimestamp = some 0 ∧
    ((0 : ℚ) ≤ 0) ∧
    (tick_user c8_state 0 true).1.nextReminderTimestamp = some 0 ∧
    ncount (Notification.doseReminder false) (tick_user c8_state 0 true).2 = 0 := by
  decide

/-- Claim C8 (amended): for every non-completed user with currentDay at most
25, a tick before a set nextReminderTimestamp leaves it unchanged and emits
no standard reminder; a tick at or after it clears it and emits the standard
reminder exactly once when the send succeeds, while the timer is consumed
whether or not the send succeeds; and the same due/clear semantics hold
independently for postponedReminderTimestamp. -/
theorem claim_C8_amended_timer_semantics (u : UserState) (now : ℚ) (sendOk : Bool)
    (hc : u.courseCompleted = false) (hd : u.currentDay ≤ 25) :
    (∀ T, u.nextReminderTimestamp = some T → now < T →
        (tick_user u now sendOk).1.nextReminderTimestamp = some T ∧
        ncount (Notification.doseReminder false) (tick_user u now sendOk).2 = 0) ∧
    (∀ T, u.nextReminderTimestamp = some T → T ≤ now →
        (tick_user u now sendOk).1.nextReminderTimestamp = none ∧
        ncount (Notification.doseReminder false) (tick_user u now sendOk).2 =
          (if sendOk then 1 else 0)) ∧
    (∀ T, u.postponedReminderTimestamp = some T → now < T →
        (tick_user u now sendOk).1.postponedReminderTimestamp = some T ∧
        ncount (Notification.doseReminder true) (tick_user u now sendOk).2 = 0) ∧
    (∀ T, u.postponedReminderTimestamp = some T → T ≤ now →
        (tick_user u now sendOk).1.postponedReminderTimestamp = none ∧
        ncount (Notification.doseReminder true) (tick_user u now sendOk).2 =
          (if sendOk then 1 else 0)) := by
  have ht := tick_user_active u now sendOk hc hd _ _ _ _ rfl rfl rfl rfl
  refine ⟨?_, ?_, ?_, ?_⟩
  · intro T hT hlt
    have hen : (evening_step
        (morning_step u (user_local_date now u.timezone)
          (user_local_minute now u.timezone) sendOk).1
        (user_local_date now u.timezone) (user_local_minute now u.timezone)
        (get_required_doses u.currentDay) sendOk).1.nextReminderTimestamp = some T := by
      rw [evening_step_next, morning_step_next]; exact hT
    have hn := next_reminder_step_notdue _ now sendOk T hen hlt
    rw [ht, hn]
    constructor
    · rw [post_reminder_step_next]; exact hen
    · simp [ncount_append, ncount, morning_step_count_dose,
        evening_step_count_dose, post_reminder_step_count_false]
  · intro T hT hdue
    have hen : (evening_step
        (morning_step u (user_local_date now u.timezone)
          (user_local_minute now u.timezone) sendOk).1
        (user_local_date now u.timezone) (user_local_minute now u.timezone)
        (get_required_doses u.currentDay) sendOk).1.nextReminderTimestamp = some T := by
      rw [evening_step_next, morning_step_next]; exact hT
    have hn := next_reminder_step_due _ now sendOk T hen hdue
    rw [ht, hn]
    constructor
    · rw [post_reminder_step_next]
    · cases sendOk <;>
        simp [ncount_append, ncount, morning_step_count_dose,
          evening_step_count_dose, post_reminder_step_count_false]
  · intro T hT hlt
    have hnp : (next_reminder_step (evening_step
        (morning_step u (user_local_date now u.timezone)
          (user_local_minute now u.timezone) sendOk).1
        (user_local_date now u.timezone) (user_local_minute now u.timezone)
        (get_required_doses u.currentDay) sendOk).1 now
        sendOk).1.postponedReminderTimestamp = some T := by
      rw [next_reminder_step_post, evening_step_post, morning_step_post]; exact hT
    have hp := post_reminder_step_notdue _ now sendOk T hnp hlt
    rw [ht, hp]
    constructor
    · exact hnp
    · simp [ncount_append, ncount, morning_step_count_dose,
        evening_step_count_dose, next_reminder_step_count_true]
  · intro T hT hdue
    have hnp : (next_reminder_step (evening_step
        (morning_step u (user_local_date now u.timezone)
          (user_local_minute now u.timezone) sendOk).1
        (user_local_date now u.timezone) (user_local_minute now u.timezone)
        (get_required_doses u.currentDay) sendOk).1 now
        sendOk).1.postponedReminderTimestamp = some T := by
      rw [next_reminder_step_post, evening_step_post, morning_step_post]; exact hT
    have hp := post_reminder_step_due _ now sendOk T hnp hdue
    rw [ht, hp]
    constructor
    · rfl
    · cases sendOk <;>
        simp [ncount_append, ncount, morning_step_count_dose,
          evening_step_count_dose, next_reminder_step_count_true]

def c8w_state : UserState := ⟨0, 0, 3, 1, none, some 1000, some 2000, none, none, false⟩

theorem claim_C8_amended_timer_semantics_witness :
    ((tick_user c8w_state 500 true).1.nextReminderTimestamp = some 1000 ∧
     ncount (Notification.doseReminder false) (tick_user c8w_state 500 true).2 = 0) ∧
    ((tick_user c8w_state 2500 true).1.nextReminderTimestamp = none ∧
     ncount (Notification.doseReminder false) (tick_user c8w_state 2500 true).2 =
       (if true then 1 else 0)) ∧
    ((tick_user c8w_state 2500 false).1.postponedReminderTimestamp = none ∧
     ncount (Notification.doseReminder true) (tick_user c8w_state 2500 false).2 =
       (if false then 1 else 0)) :=
  ⟨(claim_C8_amended_timer_semantics c8w_state 500 true rfl (by decide)).1
      1000 rfl (by norm_num),
   (claim_C8_amended_timer_semantics c8w_state 2500 true rfl (by decide)).2.1
      1000 rfl (by norm_num),
   (claim_C8_amended_timer_semantics c8w_state 2500 false rfl (by decide)).2.2.2
      2000 rfl (by norm_num)⟩

-- Concrete evaluations of the local-clock helpers at UTC offset 0:
-- 28800 s is 08:00, 28860 s is 08:01.

theorem user_local_minute_0800 : user_local_minute 28800 0 = 480 := by
  unfold user_local_minute user_local_now qfloor
  norm_num [Rat.num_ofNat, Rat.den_ofNat]
  decide

theorem user_local_minute_0801 : user_local_minute 28860 0 = 481 := by
  unfold user_local_minute user_local_now qfloor
  norm_num [Rat.num_ofNat, Rat.den_ofNat]
  decide

theorem user_local_date_0800 : user_local_date 28800 0 = 0 := by
  unfold user_local_date user_local_now qfloor
  norm_num [Rat.num_ofNat, Rat.den_ofNat]
  decide

theorem user_local_date_0801 : user_local_date 28860 0 = 0 := by
  unfold user_local_date user_local_now qfloor
  norm_num [Rat.num_ofNat, Rat.den_ofNat]
  decide

-- A non-completed user already past day 25, with the morning window open.

def c7_state : UserState := ⟨0, 0, 26, 0, none, none, none, none, none, false⟩

/-- Claim C7 is false as stated: for the non-completed user c7_state with
currentDay = 26, at local time 08:00 with lastMorningMessageDate differing
from today, the tick runs the completion sweep instead of the morning
prompt, so two invocations on the same day emit zero morning prompts and
never set lastMorningMessageDate. -/
theorem claim_C7_counterexample :
    c7_state.courseCompleted = false ∧
    479 ≤ user_local_minute 28800 c7_state.timezone ∧
    user_local_minute 28800 c7_state.timezone ≤ 481 ∧
    c7_state.lastMorningMessageDate ≠ some (user_local_date 28800 c7_state.timezone) ∧
    ncount Notification.morningPrompt (tick_user c7_state 28800 true).2 = 0 ∧
    (tick_user c7_state 28800 true).1.lastMorningMessageDate = none ∧
    ncount Notification.morningPrompt
      (tick_user (tick_user c7_state 28800 true).1 28800 true).2 = 0 := by
  refine ⟨rfl, ?_, ?_, ?_, by decide, by decide, by decide⟩
  · rw [show c7_state.timezone = 0 from rfl, user_local_minute_0800]; decide
  · rw [show c7_state.timezone = 0 from rfl, user_local_minute_0800]; decide
  · rw [show c7_state.timezone = 0 from rfl, user_local_date_0800]; decide

/-- Claim C7 (amended): for every non-completed user with currentDay at most
25 whose local time lies in the 07:59-08:01 window, a tick with
lastMorningMessageDate differing from today emits the morning prompt exactly
once and sets lastMorningMessageDate to today; a second tick on the same
calendar day emits no morning prompt and leaves lastMorningMessageDate
unchanged, so two invocations in one day produce exactly one morning
prompt. -/
theorem claim_C7_amended_morning_idempotent (u : UserState) (now now2 : ℚ)
    (hc : u.courseCompleted = false) (hd : u.currentDay ≤ 25)
    (hw : 479 ≤ user_local_minute now u.timezone ∧
          user_local_minute now u.timezone ≤ 481)
    (hw2 : 479 ≤ user_local_minute now2 u.timezone ∧
           user_local_minute now2 u.timezone ≤ 481)
    (hsame : user_local_date now2 u.timezone = user_local_date now u.timezone)
    (hnew : u.lastMorningMessageDate ≠ some (user_local_date now u.timezone)) :
    ncount Notification.morningPrompt (tick_user u now true).2 = 1 ∧
    (tick_user u now true).1.lastMorningMessageDate
      = some (user_local_date now u.timezone) ∧
    ncount Notification.morningPrompt
      (tick_user (tick_user u now true).1 now2 true).2 = 0 ∧
    (tick_user (tick_user u now true).1 now2 true).1.lastMorningMessageDate
      = some (user_local_date now u.timezone) := by
  have ht := tick_user_active u now true hc hd _ _ _ _ rfl rfl rfl rfl
  have hm := morning_step_fire u (user_local_date now u.timezone)
    (user_local_minute now u.timezone) true hw hnew
  have k1 : (tick_user u now true).1.lastMorningMessageDate
      = some (user_local_date now u.timezone) := by
    rw [ht, post_reminder_step_lastMorning, next_reminder_step_lastMorning,
      evening_step_lastMorning, hm]
  have k2 : ncount Notification.morningPrompt (tick_user u now true).2 = 1 := by
    rw [ht]
    simp only [ncount_append]
    rw [hm]
    simp [ncount, evening_step_count_morning, next_reminder_step_count_morning,
      post_reminder_step_count_morning]
  have hcc : (tick_user u now true).1.courseCompleted = false := by
    rw [ht, post_reminder_step_completed, next_reminder_step_completed,
      evening_step_completed, morning_step_completed]
    exact hc
  have hdd : (tick_user u now true).1.currentDay = u.currentDay := by
    rw [ht, post_reminder_step_day, next_reminder_step_day,
      evening_step_day, morning_step_day]
  have htz : (tick_user u now true).1.timezone = u.timezone := by
    rw [ht, post_reminder_step_tz, next_reminder_step_tz,
      evening_step_tz, morning_step_tz]
  have ht2 := tick_user_active (tick_user u now true).1 now2 true hcc
    (by rw [hdd]; exact hd) _ _ _ _ rfl rfl rfl rfl
  have hm2 : morning_step (tick_user u now true).1
      (user_local_date now2 (tick_user u now true).1.timezone)
      (user_local_minute now2 (tick_user u now true).1.timezone) true
      = ((tick_user u now true).1, []) := by
    apply morning_step_skip
    rw [k1, htz, hsame]
  have k3 : ncount Notification.morningPrompt
      (tick_user (tick_user u now true).1 now2 true).2 = 0 := by
    rw [ht2]
    simp only [ncount_append]
    rw [hm2]
    simp [ncount, evening_step_count_morning, next_reminder_step_count_morning,
      post_reminder_step_count_morning]
  have k4 : (tick_user (tick_user u now true).1 now2 true).1.lastMorningMessageDate
      = some (user_local_date now u.timezone) := by
    rw [ht2, post_reminder_step_lastMorning, next_reminder_step_lastMorning,
      evening_step_lastMorning, hm2]
    exact k1
  exact ⟨k2, k1, k3, k4⟩

def c7w_state : UserState := ⟨0, 0, 1, 0, none, none, none, none, none, false⟩

theorem claim_C7_amended_morning_idempotent_witness :
    ncount Notification.morningPrompt (tick_user c7w_state 28800 true).2 = 1 ∧
    ncount Notification.morningPrompt
      (tick_user (tick_user c7w_state 28800 true).1 28860 true).2 = 0 := by
  have htz : c7w_state.timezone = 0 := rfl
  have h := claim_C7_amended_morning_idempotent c7w_state 28800 28860 rfl
    (by decide)
    (by rw [htz, user_local_minute_0800]; exact ⟨by decide, by decide⟩)
    (by rw [htz, user_local_minute_0801]; exact ⟨by decide, by decide⟩)
    (by rw [htz, user_local_date_0801, user_local_date_0800])
    (by rw [htz, user_local_date_0800]; decide)
  exact ⟨h.1, h.2.2.1⟩

-- The earliest-trigger fold of the migration: starting from an
-- accumulator, the result is no larger than the accumulator or any
-- parseable entry, and always comes from one of them.

theorem earliest_fold_facts (l : List PendingEntry) (acc : Option ℚ) :
    (∀ a, acc = some a →
       ∃ e, l.foldl earliest_step acc = some e ∧ e ≤ a) ∧
    (∀ t, (some (some t) : PendingEntry) ∈ l →
       ∃ e, l.foldl earliest_step acc = some e ∧ e ≤ t) ∧
    (∀ e, l.foldl earliest_step acc = some e →
       acc = some e ∨ (some (some e) : PendingEntry) ∈ l) := by
  induction l generalizing acc with
  | nil =>
    refine ⟨?_, ?_, ?_⟩
    · intro a ha
      exact ⟨a, by rw [List.foldl_nil, ha], le_refl a⟩
    · intro t ht
      simp at ht
    · intro e he
      rw [List.foldl_nil] at he
      exact Or.inl he
  | cons pr rest ih =>
    refine ⟨?_, ?_, ?_⟩
    · intro a ha
      subst ha
      rw [List.foldl_cons]
      rcases pr with _ | (_ | dt)
      · exact (ih _).1 a rfl
      · exact (ih _).1 a rfl
      · by_cases hlt : dt < a
        · have hstep : earliest_step (some a) (some (some dt)) = some dt := by
            simp [earliest_step, hlt]
          rw [hstep]
          obtain ⟨e, he, hle⟩ := (ih _).1 dt rfl
          exact ⟨e, he, le_trans hle hlt.le⟩
        · have hstep : earliest_step (some a) (some (some dt)) = some a := by
            simp [earliest_step, hlt]
          rw [hstep]
          exact (ih _).1 a rfl
    · intro t ht
      rw [List.foldl_cons]
      rcases List.mem_cons.mp ht with heq | hmem
      · subst heq
        rcases acc with _ | a
        · exact (ih _).1 t rfl
        · by_cases hlt : t < a
          · have hstep : earliest_step (some a) (some (some t)) = some t := by
              simp [earliest_step, hlt]
            rw [hstep]
            exact (ih _).1 t rfl
          · have hstep : earliest_step (some a) (some (some t)) = some a := by
              simp [earliest_step, hlt]
            rw [hstep]
            obtain ⟨e, he, hle⟩ := (ih _).1 a rfl
            exact ⟨e, he, le_trans hle (not_lt.mp hlt)⟩
      · exact (ih _).2.1 t hmem
    · intro e he
      rw [List.foldl_cons] at he
      rcases (ih _).2.2 e he with hacc | hmem
      · rcases pr with _ | (_ | dt)
        · exact Or.inl hacc
        · exact Or.inl hacc
        · rcases acc with _ | a
          · have : dt = e := by simpa [earliest_step] using hacc
            subst this
            exact Or.inr (List.mem_cons.mpr (Or.inl rfl))
          · by_cases hlt : dt < a
            · have : dt = e := by simpa [earliest_step, hlt] using hacc
              subst this
              exact Or.inr (List.mem_cons.mpr (Or.inl rfl))
            · have : a = e := by simpa [earliest_step, hlt] using hacc
              subst this
              exact Or.inl rfl
      · exact Or.inr (List.mem_cons.mpr (Or.inr hmem))

/-- Claim C9: the legacy upgrade always removes pendingReminders; on a
record with no nextReminderTimestamp and a non-empty pendingReminders list
it sets nextReminderTimestamp to the earliest parseable triggerAt (a value
below every parseable entry and drawn from the list) and nulls
postponedReminderTimestamp; an already-set nextReminderTimestamp is
preserved; and the function is idempotent, with a second application
changing nothing and returning false. -/
theorem claim_C9_migration (u : RawUser) :
    ((_migrate_user_reminders u).1.pendingReminders = none) ∧
    (∀ l, u.pendingReminders = some l → l ≠ [] →
       u.nextReminderTimestamp = none →
       (_migrate_user_reminders u).1.nextReminderTimestamp = earliest_trigger l ∧
       (_migrate_user_reminders u).1.postponedReminderTimestamp = none) ∧
    (∀ t, u.nextReminderTimestamp = some t →
       (_migrate_user_reminders u).1.nextReminderTimestamp = some t) ∧
    (∀ l t, (some (some t) : PendingEntry) ∈ l →
       ∃ e, earliest_trigger l = some e ∧ e ≤ t) ∧
    (∀ l e, earliest_trigger l = some e →
       (some (some e) : PendingEntry) ∈ l) ∧
    (_migrate_user_reminders (_migrate_user_reminders u).1
       = ((_migrate_user_reminders u).1, false)) := by
  have hle : ∀ (l : List PendingEntry) t, (some (some t) : PendingEntry) ∈ l →
      ∃ e, earliest_trigger l = some e ∧ e ≤ t := by
    intro l t hmem
    exact (earliest_fold_facts l none).2.1 t hmem
  have hmem : ∀ (l : List PendingEntry) e, earliest_trigger l = some e →
      (some (some e) : PendingEntry) ∈ l := by
    intro l e he
    rcases (earliest_fold_facts l none).2.2 e he with h | h
    · exact absurd h (by simp)
    · exact h
  obtain ⟨nx, ps, pd⟩ := u
  rcases pd with _ | l
  · refine ⟨rfl, ?_, ?_, hle, hmem, rfl⟩
    · intro l hl
      simp [_migrate_user_reminders] at hl
    · intro t ht
      exact ht
  · cases l with
    | nil =>
      refine ⟨rfl, ?_, ?_, hle, hmem, rfl⟩
      · intro l0 hl0 hne
        simp [_migrate_user_reminders] at hl0
        exact absurd hl0 hne
      · intro t ht
        exact ht
    | cons p rest =>
      rcases nx with _ | t0
      · refine ⟨?_, ?_, ?_, hle, hmem, ?_⟩
        · rcases he : earliest_trigger (p :: rest) with _ | e <;>
            simp [_migrate_user_reminders, he]
        · intro l0 hl0 hne hnx
          have hl : l0 = p :: rest := by
            simpa [_migrate_user_reminders] using hl0.symm
          subst hl
          rcases he : earliest_trigger (p :: rest) with _ | e <;>
            simp [_migrate_user_reminders, he]
        · intro t ht
          simp at ht
        · rcases he : earliest_trigger (p :: rest) with _ | e <;>
            simp [_migrate_user_reminders, he]
      · refine ⟨rfl, ?_, ?_, hle, hmem, rfl⟩
        · intro l0 hl0 hne hnx
          simp at hnx
        · intro t ht
          exact ht

def c9a_state : RawUser :=
  ⟨none, some 5, some [some (some 3), none, some none, some (some 2)]⟩

def c9b_state : RawUser := ⟨some 7, some 5, some [some (some 3)]⟩

theorem claim_C9_migration_witness :
    (_migrate_user_reminders c9a_state).1.nextReminderTimestamp
      = earliest_trigger [some (some 3), none, some none, some (some 2)] ∧
    (_migrate_user_reminders c9a_state).1.postponedReminderTimestamp = none ∧
    (_migrate_user_reminders c9b_state).1.nextReminderTimestamp = some 7 ∧
    (∃ e, earliest_trigger [some (some 3), none, some none, some (some 2)]
       = some e ∧ e ≤ 3) :=
  ⟨((claim_C9_migration c9a_state).2.1 _ rfl (by simp) rfl).1,
   ((claim_C9_migration c9a_state).2.1 _ rfl (by simp) rfl).2,
   (claim_C9_migration c9b_state).2.2.1 7 rfl,
   (claim_C9_migration c9a_state).2.2.2.1 _ 3 (by simp)⟩

-- Characterisation of the regex-plus-range core of parse_timezone on a
-- sign-stripped body, for any digit test and digit value function.

theorem tz_apply_sign_iff (isD : Char → Bool) (dv : Char → ℤ) (sgn : ℤ)
    (body : List Char) (h : ℤ) :
    tz_apply_sign isD dv sgn body = some h ↔
      (((∃ d1, body = [d1] ∧ isD d1 = true ∧ h = sgn * dv d1) ∨
        (∃ d1 d2, body = [d1, d2] ∧ isD d1 = true ∧ isD d2 = true ∧
          h = sgn * (10 * dv d1 + dv d2))) ∧
       -12 ≤ h ∧ h ≤ 14) := by
  rcases body with _ | ⟨a, _ | ⟨b, _ | ⟨c, _ | ⟨d, _ | ⟨e, r0⟩⟩⟩⟩⟩
  · simp [tz_apply_sign, tz_re_match]
  · by_cases ha : isD a
    · rw [show tz_apply_sign isD dv sgn [a]
          = (if sgn * dv a < -12 ∨ sgn * dv a > 14 then none
             else some (sgn * dv a)) from by
        simp [tz_apply_sign, tz_re_match, ha]]
      constructor
      · intro hl
        split_ifs at hl with hr
        have hx := Option.some.inj hl
        subst hx
        exact ⟨Or.inl ⟨a, rfl, ha, rfl⟩, by omega, by omega⟩
      · rintro ⟨hd, h1, h2⟩
        rcases hd with ⟨d1, hd1, hdig, hh⟩ | ⟨d1, d2, hlist, _⟩
        · injection hd1 with hx _
          subst hx
          subst hh
          rw [if_neg (by omega)]
        · cases hlist
    · constructor
      · intro hl
        exfalso
        rw [show tz_apply_sign isD dv sgn [a] = none from by
          simp [tz_apply_sign, tz_re_match, ha]] at hl
        cases hl
      · rintro ⟨hd, h1, h2⟩
        exfalso
        rcases hd with ⟨d1, hd1, hdig, _⟩ | ⟨d1, d2, hlist, _⟩
        · injection hd1 with hx _
          subst hx
          exact ha hdig
        · cases hlist
  · by_cases ha : isD a
    · by_cases hb : isD b
      · rw [show tz_apply_sign isD dv sgn [a, b]
            = (if sgn * (10 * dv a + dv b) < -12 ∨
                  sgn * (10 * dv a + dv b) > 14 then none
               else some (sgn * (10 * dv a + dv b))) from by
          simp [tz_apply_sign, tz_re_match, ha, hb]]
        constructor
        · intro hl
          split_ifs at hl with hr
          have hx := Option.some.inj hl
          subst hx
          exact ⟨Or.inr ⟨a, b, rfl, ha, hb, rfl⟩, by omega, by omega⟩
        · rintro ⟨hd, h1, h2⟩
          rcases hd with ⟨d1, hd1, _⟩ | ⟨d1, d2, hlist, hdig1, hdig2, hh⟩
          · cases hd1
          · injection hlist with hx hrest
            injection hrest with hy _
            subst hx
            subst hy
            subst hh
            rw [if_neg (by omega)]
      · constructor
        · intro hl
          exfalso
          rw [show tz_apply_sign isD dv sgn [a, b] = none from by
            simp [tz_apply_sign, tz_re_match, hb]] at hl
          cases hl
        · rintro ⟨hd, h1, h2⟩
          exfalso
          rcases hd with ⟨d1, hd1, _⟩ | ⟨d1, d2, hlist, hdig1, hdig2, _⟩
          · cases hd1
          · injection hlist with hx hrest
            injection hrest with hy _
            subst hy
            exact hb hdig2
    · constructor
      · intro hl
        exfalso
        rw [show tz_apply_sign isD dv sgn [a, b] = none from by
          simp [tz_apply_sign, tz_re_match, ha]] at hl
        cases hl
      · rintro ⟨hd, h1, h2⟩
        exfalso
        rcases hd with ⟨d1, hd1, _⟩ | ⟨d1, d2, hlist, hdig1, hdig2, _⟩
        · cases hd1
        · injection hlist with hx hrest
          subst hx
          exact ha hdig1
  · constructor
    · intro hl
      exfalso
      rw [show tz_apply_sign isD dv sgn [a, b, c] = none from by
        simp [tz_apply_sign, tz_re_match]] at hl
      cases hl
    · rintro ⟨hd, _⟩
      rcases hd with ⟨d1, hd1, _⟩ | ⟨d1, d2, hlist, _⟩
      · cases hd1
      · cases hlist
  · constructor
    · intro hl
      exfalso
      rw [show tz_apply_sign isD dv sgn [a, b, c, d]
          = (match tz_re_match isD dv [a, b, c, d] with
             | none => none
             | some hm =>
               if hm.2 then none
               else if sgn * hm.1 < -12 ∨ sgn * hm.1 > 14 then none
                    else some (sgn * hm.1)) from rfl] at hl
      rw [show tz_re_match isD dv [a, b, c, d]
          = (if isD a = true ∧ b = ':' ∧ isD c = true ∧ isD d = true
             then some (dv a, true) else none) from rfl] at hl
      split_ifs at hl <;> simp at hl
    · rintro ⟨hd, _⟩
      rcases hd with ⟨d1, hd1, _⟩ | ⟨d1, d2, hlist, _⟩
      · cases hd1
      · cases hlist
  · rcases r0 with _ | ⟨f, r1⟩
    · constructor
      · intro hl
        exfalso
        rw [show tz_apply_sign isD dv sgn [a, b, c, d, e]
            = (match tz_re_match isD dv [a, b, c, d, e] with
               | none => none
               | some hm =>
                 if hm.2 then none
                 else if sgn * hm.1 < -12 ∨ sgn * hm.1 > 14 then none
                      else some (sgn * hm.1)) from rfl] at hl
        rw [show tz_re_match isD dv [a, b, c, d, e]
            = (if isD a = true ∧ isD b = true ∧ c = ':' ∧
                  isD d = true ∧ isD e = true
               then some (10 * dv a + dv b, true) else none) from rfl] at hl
        split_ifs at hl <;> simp at hl
      · rintro ⟨hd, _⟩
        rcases hd with ⟨d1, hd1, _⟩ | ⟨d1, d2, hlist, _⟩
        · cases hd1
        · cases hlist
    · constructor
      · intro hl
        exfalso
        rw [show tz_apply_sign isD dv sgn (a :: b :: c :: d :: e :: f :: r1)
            = none from rfl] at hl
        cases hl
      · rintro ⟨hd, _⟩
        rcases hd with ⟨d1, hd1, _⟩ | ⟨d1, d2, hlist, _⟩
        · cases hd1
        · cases hlist

theorem parse_timezone_chars_iff (isD : Char → Bool) (dv : Char → ℤ)
    (hplus : isD '+' = false) (hminus : isD '-' = false)
    (cs : List Char) (h : ℤ) :
    parse_timezone_chars isD dv cs = some h ↔
      (tz_claim_shape isD dv cs h ∧ -12 ≤ h ∧ h ≤ 14) := by
  rcases cs with _ | ⟨c, rest⟩
  · rw [show parse_timezone_chars isD dv [] = tz_apply_sign isD dv 1 []
        from rfl,
      tz_apply_sign_iff]
    simp [tz_claim_shape]
  · by_cases hp : c = '+'
    · subst hp
      rw [show parse_timezone_chars isD dv ('+' :: rest)
            = tz_apply_sign isD dv 1 rest
          from by rw [show parse_timezone_chars isD dv ('+' :: rest)
            = (if ('+' : Char) = '+' then tz_apply_sign isD dv 1 rest
               else if ('+' : Char) = '-' then tz_apply_sign isD dv (-1) rest
               else tz_apply_sign isD dv 1 ('+' :: rest)) from rfl, if_pos rfl],
        tz_apply_sign_iff]
      constructor
      · rintro ⟨hb, h1, h2⟩
        refine ⟨?_, h1, h2⟩
        rcases hb with ⟨d1, rfl, hd, hh⟩ | ⟨d1, d2, rfl, hd1, hd2, hh⟩
        · exact Or.inr (Or.inr (Or.inl ⟨d1, rfl, hd, by rw [hh, one_mul]⟩))
        · exact Or.inr (Or.inr (Or.inr (Or.inl
            ⟨d1, d2, rfl, hd1, hd2, by rw [hh, one_mul]⟩)))
      · rintro ⟨hs, h1, h2⟩
        refine ⟨?_, h1, h2⟩
        rcases hs with ⟨d1, heq, hd, hh⟩ | ⟨d1, d2, heq, hd1, hd2, hh⟩ |
          ⟨d1, heq, hd, hh⟩ | ⟨d1, d2, heq, hd1, hd2, hh⟩ |
          ⟨d1, heq, hd, hh⟩ | ⟨d1, d2, heq, hd1, hd2, hh⟩
        · injection heq with hx _
          subst hx
          rw [hplus] at hd
          exact Bool.noConfusion hd
        · injection heq with hx _
          subst hx
          rw [hplus] at hd1
          exact Bool.noConfusion hd1
        · injection heq with _ hx
          subst hx
          exact Or.inl ⟨d1, rfl, hd, by rw [one_mul]; exact hh⟩
        · injection heq with _ hx
          subst hx
          exact Or.inr ⟨d1, d2, rfl, hd1, hd2, by rw [one_mul]; exact hh⟩
        · injection heq with hx _
          exact absurd hx (by decide)
        · injection heq with hx _
          exact absurd hx (by decide)
    · by_cases hm : c = '-'
      · subst hm
        rw [show parse_timezone_chars isD dv ('-' :: rest)
              = tz_apply_sign isD dv (-1) rest
            from by rw [show parse_timezone_chars isD dv ('-' :: rest)
              = (if ('-' : Char) = '+' then tz_apply_sign isD dv 1 rest
                 else if ('-' : Char) = '-' then tz_apply_sign isD dv (-1) rest
                 else tz_apply_sign isD dv 1 ('-' :: rest)) from rfl,
              if_neg (by decide), if_pos rfl],
          tz_apply_sign_iff]
        constructor
        · rintro ⟨hb, h1, h2⟩
          refine ⟨?_, h1, h2⟩
          rcases hb with ⟨d1, rfl, hd, hh⟩ | ⟨d1, d2, rfl, hd1, hd2, hh⟩
          · exact Or.inr (Or.inr (Or.inr (Or.inr (Or.inl
              ⟨d1, rfl, hd, by rw [hh, neg_one_mul]⟩))))
          · exact Or.inr (Or.inr (Or.inr (Or.inr (Or.inr
              ⟨d1, d2, rfl, hd1, hd2, by rw [hh, neg_one_mul]⟩))))
        · rintro ⟨hs, h1, h2⟩
          refine ⟨?_, h1, h2⟩
          rcases hs with ⟨d1, heq, hd, hh⟩ | ⟨d1, d2, heq, hd1, hd2, hh⟩ |
            ⟨d1, heq, hd, hh⟩ | ⟨d1, d2, heq, hd1, hd2, hh⟩ |
            ⟨d1, heq, hd, hh⟩ | ⟨d1, d2, heq, hd1, hd2, hh⟩
          · injection heq with hx _
            subst hx
            rw [hminus] at hd
            exact Bool.noConfusion hd
          · injection heq with hx _
            subst hx
            rw [hminus] at hd1
            exact Bool.noConfusion hd1
          · injection heq with hx _
            exact absurd hx (by decide)
          · injection heq with hx _
            exact absurd hx (by decide)
          · injection heq with _ hx
            subst hx
            exact Or.inl ⟨d1, rfl, hd, by rw [neg_one_mul]; exact hh⟩
          · injection heq with _ hx
            subst hx
            exact Or.inr ⟨d1, d2, rfl, hd1, hd2, by rw [neg_one_mul]; exact hh⟩
      · rw [show parse_timezone_chars isD dv (c :: rest)
            = (if c = '+' then tz_apply_sign isD dv 1 rest
               else if c = '-' then tz_apply_sign isD dv (-1) rest
               else tz_apply_sign isD dv 1 (c :: rest)) from rfl,
          if_neg hp, if_neg hm, tz_apply_sign_iff]
        constructor
        · rintro ⟨hb, h1, h2⟩
          refine ⟨?_, h1, h2⟩
          rcases hb with ⟨d1, heq, hd, hh⟩ | ⟨d1, d2, heq, hd1, hd2, hh⟩
          · exact Or.inl ⟨d1, heq, hd, by rw [hh, one_mul]⟩
          · exact Or.inr (Or.inl ⟨d1, d2, heq, hd1, hd2, by rw [hh, one_mul]⟩)
        · rintro ⟨hs, h1, h2⟩
          refine ⟨?_, h1, h2⟩
          rcases hs with ⟨d1, heq, hd, hh⟩ | ⟨d1, d2, heq, hd1, hd2, hh⟩ |
            ⟨d1, heq, hd, hh⟩ | ⟨d1, d2, heq, hd1, hd2, hh⟩ |
            ⟨d1, heq, hd, hh⟩ | ⟨d1, d2, heq, hd1, hd2, hh⟩
          · exact Or.inl ⟨d1, heq, hd, by rw [one_mul]; exact hh⟩
          · exact Or.inr ⟨d1, d2, heq, hd1, hd2, by rw [one_mul]; exact hh⟩
          · injection heq with hx _
            exact absurd hx hp
          · injection heq with hx _
            exact absurd hx hp
          · injection heq with hx _
            exact absurd hx hm
          · injection heq with hx _
            exact absurd hx hm

/-- Claim C10: parse_timezone returns h exactly when the stripped input is
an optionally signed one- or two-digit number with no minutes part whose
value h lies in [-12, 14]; every other input (a ":MM" suffix, an
out-of-range value, any other shape) yields none.  The digit class \d, the
digit values used by int(), and str.strip are the Python runtime's
Unicode-aware character classes, external to this repository, so the
statement quantifies over the digit test isD and digit value dv (with the
Unicode-Nd facts that the literal signs are not decimal digits) and over the
strip function; instantiating them with the runtime's classes gives the
source function. -/
theorem claim_C10_parse_timezone (isD : Char → Bool) (dv : Char → ℤ)
    (strip : String → List Char)
    (hplus : isD '+' = false) (hminus : isD '-' = false)
    (s : String) (h : ℤ) :
    parse_timezone isD dv strip s = some h ↔
      (tz_claim_shape isD dv (strip s) h ∧ -12 ≤ h ∧ h ≤ 14) :=
  parse_timezone_chars_iff isD dv hplus hminus (strip s) h

theorem claim_C10_parse_timezone_witness :
    Char.isDigit '+' = false ∧ Char.isDigit '-' = false ∧
    parse_timezone (fun c => c.isDigit) digitVal (fun s => s.toList) "+5"
      = some 5 ∧
    parse_timezone (fun c => c.isDigit) digitVal (fun s => s.toList) "+05:30"
      = none := by
  refine ⟨by decide, by decide, ?_, by decide⟩
  exact (claim_C10_parse_timezone (fun c => c.isDigit) digitVal
    (fun s => s.toList) (by decide) (by decide) "+5" 5).mpr
    ⟨Or.inr (Or.inr (Or.inl ⟨'5', by decide, by decide, by decide⟩)),
     by decide, by decide⟩
